import Mathlib

/-!
Verification of the NLCD county land-cover aggregation core
(`process_county_landcover.py`): the reclassification table, the tally
fold, proportion normalization, per-polygon error isolation, and the
partition-validation post-pass.  Pixel counts are natural numbers and
proportions are rationals (exact arithmetic for the `count / total_valid`
divisions performed by the code).
-/

namespace NlcdCounty

/-- The six semantic classes used during tallying; `nodata` is counted but
excluded from proportion outputs. -/
inductive SemanticClass where
  | forest
  | agriculture
  | developed
  | wetland
  | other
  | nodata
deriving DecidableEq, Repr

/-- The `NLCD_RECLASSIFICATION` dict (lines 29-58): raw NLCD codes mapped to
semantic classes; codes absent from the table yield `none`. -/
def NLCD_RECLASSIFICATION (code : Nat) : Option SemanticClass :=
  match code with
  | 41 => some .forest      -- Deciduous Forest
  | 42 => some .forest      -- Evergreen Forest
  | 43 => some .forest      -- Mixed Forest
  | 81 => some .agriculture -- Pasture/Hay
  | 82 => some .agriculture -- Cultivated Crops
  | 21 => some .developed   -- Developed, Open Space
  | 22 => some .developed   -- Developed, Low Intensity
  | 23 => some .developed   -- Developed, Medium Intensity
  | 24 => some .developed   -- Developed, High Intensity
  | 90 => some .wetland     -- Woody Wetlands
  | 95 => some .wetland     -- Emergent Herbaceous Wetlands
  | 11 => some .other       -- Open Water
  | 12 => some .other       -- Perennial Ice/Snow
  | 31 => some .other       -- Barren Land
  | 52 => some .other       -- Shrub/Scrub
  | 71 => some .other       -- Grassland/Herbaceous
  | 250 => some .nodata     -- NoData
  | _ => none

/-- The `class_counts` dict: one non-negative pixel count per semantic class. -/
structure ClassCounts where
  forest : Nat
  agriculture : Nat
  developed : Nat
  wetland : Nat
  other : Nat
  nodata : Nat
deriving DecidableEq, Repr

/-- The zero-initialized `class_counts` dict (lines 190-197). -/
def emptyCounts : ClassCounts := ⟨0, 0, 0, 0, 0, 0⟩

/-- `class_counts[class_name] += count`. -/
def addToClass (cc : ClassCounts) (c : SemanticClass) (n : Nat) : ClassCounts :=
  match c with
  | .forest => { cc with forest := cc.forest + n }
  | .agriculture => { cc with agriculture := cc.agriculture + n }
  | .developed => { cc with developed := cc.developed + n }
  | .wetland => { cc with wetland := cc.wetland + n }
  | .other => { cc with other := cc.other + n }
  | .nodata => { cc with nodata := cc.nodata + n }

/-- One iteration of the loop at lines 199-202: accumulate the count when
the code is in the reclassification table, otherwise leave the tally
unchanged. -/
def foldStep (cc : ClassCounts) (p : Nat × Nat) : ClassCounts :=
  match NLCD_RECLASSIFICATION p.1 with
  | some class_name => addToClass cc class_name p.2
  | none => cc

/-- The loop at lines 199-202 (also lines 86-89 of `reclassify_array`):
fold a raw per-code pixel-count mapping through the reclassification
table, accumulating mapped codes and dropping unmapped ones. -/
def foldCounts (pixel_counts : List (Nat × Nat)) : ClassCounts :=
  pixel_counts.foldl foldStep emptyCounts

/-- `total_valid_pixels` (lines 107-108): the sum of counts over every
class other than `nodata`. -/
def total_valid_pixels (cc : ClassCounts) : Nat :=
  cc.forest + cc.agriculture + cc.developed + cc.wetland + cc.other

/-- The five output proportions of `calculate_proportions`. -/
structure Proportions where
  forest_proportion : ℚ
  agriculture_proportion : ℚ
  developed_proportion : ℚ
  wetland_proportion : ℚ
  other_proportion : ℚ
deriving DecidableEq, Repr

/-- The all-zero proportions dict (lines 112-118, also 179-184, 218-223). -/
def zeroProportions : Proportions := ⟨0, 0, 0, 0, 0⟩

/-- `calculate_proportions` (lines 93-128): all-zero when `total_valid_pixels`
is 0, otherwise each class count divided by `total_valid_pixels`. -/
def calculate_proportions (class_counts : ClassCounts) : Proportions :=
  let tv := total_valid_pixels class_counts
  if tv = 0 then zeroProportions
  else
    { forest_proportion := (class_counts.forest : ℚ) / tv
      agriculture_proportion := (class_counts.agriculture : ℚ) / tv
      developed_proportion := (class_counts.developed : ℚ) / tv
      wetland_proportion := (class_counts.wetland : ℚ) / tv
      other_proportion := (class_counts.other : ℚ) / tv }

/-- Sum of the five proportions of a `Proportions` value. -/
def Proportions.total (p : Proportions) : ℚ :=
  p.forest_proportion + p.agriculture_proportion + p.developed_proportion +
    p.wetland_proportion + p.other_proportion

/-- What `zonal_stats` yields for one county (lines 167-172): an exception,
an empty result (`not stats or not stats[0]`), or a raw per-code tally. -/
inductive SampleOutcome where
  | failure
  | empty
  | tally (pixel_counts : List (Nat × Nat))
deriving DecidableEq, Repr

/-- One input polygon: its `GEOID` identifier and the sampling outcome the
raster environment produces for its geometry. -/
structure Polygon where
  geoid : String
  outcome : SampleOutcome
deriving DecidableEq, Repr

/-- One row of the output table: `county_fips` plus the five proportion
columns (lines 207-210 and the schema of the saved CSV). -/
structure CountyRecord where
  county_fips : String
  forest_proportion : ℚ
  agriculture_proportion : ℚ
  developed_proportion : ℚ
  wetland_proportion : ℚ
  other_proportion : ℚ
deriving DecidableEq, Repr

/-- Build a `CountyRecord` from an identifier and proportions. -/
def mkRecord (fips : String) (p : Proportions) : CountyRecord :=
  { county_fips := fips
    forest_proportion := p.forest_proportion
    agriculture_proportion := p.agriculture_proportion
    developed_proportion := p.developed_proportion
    wetland_proportion := p.wetland_proportion
    other_proportion := p.other_proportion }

/-- The degenerate all-zero record produced for empty or failed sampling
(lines 177-184 and 217-224). -/
def zeroRecord (fips : String) : CountyRecord := mkRecord fips zeroProportions

/-- The body of the per-county loop (lines 164-225): on an exception the
record is all-zero and an error line naming the county is printed; on an
empty result the record is all-zero with a warning line; otherwise the raw
tally is folded and normalized.  Returns the record and the log lines. -/
def processCounty (p : Polygon) : CountyRecord × List String :=
  match p.outcome with
  | .failure =>
      (zeroRecord p.geoid, ["Error processing county " ++ p.geoid])
  | .empty =>
      (zeroRecord p.geoid,
        ["Warning: No raster data found for county " ++ p.geoid])
  | .tally pixel_counts =>
      (mkRecord p.geoid (calculate_proportions (foldCounts pixel_counts)), [])

/-- The record a polygon contributes to the output table. -/
def recordOf (p : Polygon) : CountyRecord := (processCounty p).1

/-- The main loop (lines 153-229): one record appended per polygon, in
input iteration order. -/
def process_county_landcover (polygons : List Polygon) : List CountyRecord :=
  polygons.map recordOf

/-- Sum of the five proportion columns of a record (`total_proportion`,
line 235). -/
def CountyRecord.total_proportion (r : CountyRecord) : ℚ :=
  r.forest_proportion + r.agriculture_proportion + r.developed_proportion +
    r.wetland_proportion + r.other_proportion

/-- The validator's flag (lines 238-240): a record is invalid when its
proportion total is strictly below 0.99 or strictly above 1.01. -/
def isInvalid (r : CountyRecord) : Bool :=
  decide (r.total_proportion < 99 / 100) || decide (r.total_proportion > 101 / 100)

/-- A record together with the temporary `total_proportion` column
(line 235). -/
structure RecordWithTotal where
  base : CountyRecord
  total_proportion : ℚ
deriving DecidableEq, Repr

/-- Line 235: append the `total_proportion` column. -/
def addTotal (r : CountyRecord) : RecordWithTotal :=
  ⟨r, r.total_proportion⟩

/-- Line 248: drop the `total_proportion` column before saving. -/
def dropTotal (rt : RecordWithTotal) : CountyRecord := rt.base

/-- Lines 238-240: the rows flagged by the validator. -/
def invalidCounties (rows : List RecordWithTotal) : List RecordWithTotal :=
  rows.filter (fun rt =>
    decide (rt.total_proportion < 99 / 100) || decide (rt.total_proportion > 101 / 100))

/-- The validation post-pass (lines 231-252): add the total column, flag
out-of-range rows (purely diagnostic), drop the column, and save.  Returns
the saved table and the number of flagged rows. -/
def validateAndSave (results : List CountyRecord) : List CountyRecord × Nat :=
  let withTotal := results.map addTotal
  let invalid := invalidCounties withTotal
  ((withTotal.map dropTotal), invalid.length)

/-! ## Helper lemmas -/

lemma total_valid_cast_pos {cc : ClassCounts} (h : 0 < total_valid_pixels cc) :
    (0 : ℚ) < (total_valid_pixels cc : ℚ) := by
  exact_mod_cast h

lemma forest_le_total (cc : ClassCounts) : cc.forest ≤ total_valid_pixels cc := by
  unfold total_valid_pixels; omega

lemma agriculture_le_total (cc : ClassCounts) :
    cc.agriculture ≤ total_valid_pixels cc := by
  unfold total_valid_pixels; omega

lemma developed_le_total (cc : ClassCounts) :
    cc.developed ≤ total_valid_pixels cc := by
  unfold total_valid_pixels; omega

lemma wetland_le_total (cc : ClassCounts) : cc.wetland ≤ total_valid_pixels cc := by
  unfold total_valid_pixels; omega

lemma other_le_total (cc : ClassCounts) : cc.other ≤ total_valid_pixels cc := by
  unfold total_valid_pixels; omega

lemma ratio_mem_unit {a t : Nat} (ht : 0 < t) (hle : a ≤ t) :
    (0 : ℚ) ≤ (a : ℚ) / (t : ℚ) ∧ (a : ℚ) / (t : ℚ) ≤ 1 := by
  have htQ : (0 : ℚ) < (t : ℚ) := by exact_mod_cast ht
  constructor
  · exact div_nonneg (by positivity) htQ.le
  · rw [div_le_one htQ]
    exact_mod_cast hle

/-! ## Claim theorems -/

/-- C1: whenever `total_valid_pixels` is strictly positive,
`calculate_proportions` returns each class count divided by
`total_valid_pixels`; each proportion lies in [0,1]; and the five
proportions sum to exactly 1, hence within [0.99, 1.01]. -/
theorem C1_proportions_of_pos_total (cc : ClassCounts)
    (h : 0 < total_valid_pixels cc) :
    (calculate_proportions cc).forest_proportion
        = (cc.forest : ℚ) / (total_valid_pixels cc : ℚ) ∧
    (calculate_proportions cc).agriculture_proportion
        = (cc.agriculture : ℚ) / (total_valid_pixels cc : ℚ) ∧
    (calculate_proportions cc).developed_proportion
        = (cc.developed : ℚ) / (total_valid_pixels cc : ℚ) ∧
    (calculate_proportions cc).wetland_proportion
        = (cc.wetland : ℚ) / (total_valid_pixels cc : ℚ) ∧
    (calculate_proportions cc).other_proportion
        = (cc.other : ℚ) / (total_valid_pixels cc : ℚ) ∧
    (0 ≤ (calculate_proportions cc).forest_proportion ∧
      (calculate_proportions cc).forest_proportion ≤ 1) ∧
    (0 ≤ (calculate_proportions cc).agriculture_proportion ∧
      (calculate_proportions cc).agriculture_proportion ≤ 1) ∧
    (0 ≤ (calculate_proportions cc).developed_proportion ∧
      (calculate_proportions cc).developed_proportion ≤ 1) ∧
    (0 ≤ (calculate_proportions cc).wetland_proportion ∧
      (calculate_proportions cc).wetland_proportion ≤ 1) ∧
    (0 ≤ (calculate_proportions cc).other_proportion ∧
      (calculate_proportions cc).other_proportion ≤ 1) ∧
    (calculate_proportions cc).total = 1 ∧
    99 / 100 ≤ (calculate_proportions cc).total ∧
    (calculate_proportions cc).total ≤ 101 / 100 := by
  have hne : total_valid_pixels cc ≠ 0 := Nat.pos_iff_ne_zero.mp h
  have htQ : (0 : ℚ) < (total_valid_pixels cc : ℚ) := total_valid_cast_pos h
  have hcp : calculate_proportions cc =
      { forest_proportion := (cc.forest : ℚ) / (total_valid_pixels cc : ℚ)
        agriculture_proportion := (cc.agriculture : ℚ) / (total_valid_pixels cc : ℚ)
        developed_proportion := (cc.developed : ℚ) / (total_valid_pixels cc : ℚ)
        wetland_proportion := (cc.wetland : ℚ) / (total_valid_pixels cc : ℚ)
        other_proportion := (cc.other : ℚ) / (total_valid_pixels cc : ℚ) } := by
    unfold calculate_proportions
    simp [hne]
  have htotal : (calculate_proportions cc).total = 1 := by
    rw [hcp]
    unfold Proportions.total
    simp only
    rw [div_add_div_same, div_add_div_same, div_add_div_same, div_add_div_same]
    rw [div_eq_one_iff_eq htQ.ne']
    unfold total_valid_pixels
    push_cast
    ring
  refine ⟨by rw [hcp], by rw [hcp], by rw [hcp], by rw [hcp], by rw [hcp],
    ?_, ?_, ?_, ?_, ?_, htotal, ?_, ?_⟩
  · rw [hcp]; exact ratio_mem_unit h (forest_le_total cc)
  · rw [hcp]; exact ratio_mem_unit h (agriculture_le_total cc)
  · rw [hcp]; exact ratio_mem_unit h (developed_le_total cc)
  · rw [hcp]; exact ratio_mem_unit h (wetland_le_total cc)
  · rw [hcp]; exact ratio_mem_unit h (other_le_total cc)
  · rw [htotal]; norm_num
  · rw [htotal]; norm_num

/-- Witness for C1 at the concrete tally (forest 120, agriculture 30,
developed 50, nodata 10). -/
theorem C1_proportions_of_pos_total_witness :
    0 < total_valid_pixels ⟨120, 30, 50, 0, 0, 10⟩ ∧
    (calculate_proportions ⟨120, 30, 50, 0, 0, 10⟩).total = 1 :=
  ⟨by decide,
    (C1_proportions_of_pos_total ⟨120, 30, 50, 0, 0, 10⟩ (by decide)).2.2.2.2.2.2.2.2.2.2.1⟩

/-- C2: whenever `total_valid_pixels` is 0, `calculate_proportions` returns
all five proportions exactly 0, and the result does not depend on the
`nodata` count. -/
theorem C2_zero_total_gives_zero (cc : ClassCounts)
    (h : total_valid_pixels cc = 0) :
    calculate_proportions cc = zeroProportions ∧
    ∀ n : Nat, calculate_proportions { cc with nodata := n } = zeroProportions := by
  constructor
  · unfold calculate_proportions
    simp [h]
  · intro n
    have h' : total_valid_pixels { cc with nodata := n } = 0 := h
    unfold calculate_proportions
    simp [h']

/-- Witness for C2 at a tally whose only pixels are nodata. -/
theorem C2_zero_total_gives_zero_witness :
    total_valid_pixels ⟨0, 0, 0, 0, 0, 7⟩ = 0 ∧
    calculate_proportions ⟨0, 0, 0, 0, 0, 7⟩ = zeroProportions :=
  ⟨by decide, (C2_zero_total_gives_zero ⟨0, 0, 0, 0, 0, 7⟩ (by decide)).1⟩

lemma foldStep_unmapped {p : Nat × Nat} (h : NLCD_RECLASSIFICATION p.1 = none)
    (cc : ClassCounts) : foldStep cc p = cc := by
  unfold foldStep
  rw [h]

lemma foldl_filter_mapped (pcs : List (Nat × Nat)) :
    ∀ init : ClassCounts,
      pcs.foldl foldStep init
        = (pcs.filter (fun p => (NLCD_RECLASSIFICATION p.1).isSome)).foldl
            foldStep init := by
  induction pcs with
  | nil => intro init; rfl
  | cons a t ih =>
    intro init
    by_cases hc : (NLCD_RECLASSIFICATION a.1).isSome
    · simp only [List.filter_cons, hc, if_pos, List.foldl_cons, ih]
    · have hnone : NLCD_RECLASSIFICATION a.1 = none :=
        Option.not_isSome_iff_eq_none.mp hc
      simp only [List.filter_cons, hc, Bool.false_eq_true, if_false,
        List.foldl_cons, foldStep_unmapped hnone, ih]

/-- C3: folding drops unmapped codes entirely — the fold of any raw tally
equals the fold of its restriction to codes present in the reclassification
table — and on the concrete input with 100 pixels of code 41 and 50 pixels
of the unmapped code 999, the total is 100 and the forest proportion is 1
with the other four proportions 0. -/
theorem C3_unmapped_codes_dropped :
    (∀ pcs : List (Nat × Nat),
      foldCounts pcs
        = foldCounts (pcs.filter (fun p => (NLCD_RECLASSIFICATION p.1).isSome))) ∧
    total_valid_pixels (foldCounts [(41, 100), (999, 50)]) = 100 ∧
    calculate_proportions (foldCounts [(41, 100), (999, 50)])
      = ⟨1, 0, 0, 0, 0⟩ := by
  refine ⟨fun pcs => foldl_filter_mapped pcs emptyCounts, by decide, ?_⟩
  have hfold : foldCounts [(41, 100), (999, 50)] = ⟨100, 0, 0, 0, 0, 0⟩ := by
    decide
  rw [hfold]
  simp only [calculate_proportions, total_valid_pixels]
  norm_num

/-- The sum of all six class counts, `nodata` included. -/
def totalSix (cc : ClassCounts) : Nat := total_valid_pixels cc + cc.nodata

lemma totalSix_addToClass (cc : ClassCounts) (c : SemanticClass) (n : Nat) :
    totalSix (addToClass cc c n) = totalSix cc + n := by
  cases c <;> simp [addToClass, totalSix, total_valid_pixels] <;> omega

lemma totalSix_foldl (pcs : List (Nat × Nat)) :
    ∀ init : ClassCounts,
      totalSix (pcs.foldl foldStep init)
        = totalSix init
          + ((pcs.filter (fun p => (NLCD_RECLASSIFICATION p.1).isSome)).map
              Prod.snd).sum := by
  induction pcs with
  | nil => intro init; simp
  | cons a t ih =>
    intro init
    by_cases hc : (NLCD_RECLASSIFICATION a.1).isSome
    · have hstep : totalSix (foldStep init a) = totalSix init + a.2 := by
        unfold foldStep
        cases hsome : NLCD_RECLASSIFICATION a.1 with
        | none => rw [hsome] at hc; simp at hc
        | some c => exact totalSix_addToClass init c a.2
      simp only [List.filter_cons, hc, if_pos, List.foldl_cons, ih, hstep,
        List.map_cons, List.sum_cons]
      omega
    · have hnone : NLCD_RECLASSIFICATION a.1 = none :=
        Option.not_isSome_iff_eq_none.mp hc
      simp only [List.filter_cons, hc, Bool.false_eq_true, if_false,
        List.foldl_cons, foldStep_unmapped hnone, ih]

/-- C10: the fold conserves pixels — the sum of the six class counts equals
the sum of the input counts over exactly the raw codes present in the
reclassification table — and every class count is non-negative. -/
theorem C10_pixel_conservation (pcs : List (Nat × Nat)) :
    total_valid_pixels (foldCounts pcs) + (foldCounts pcs).nodata
      = ((pcs.filter (fun p => (NLCD_RECLASSIFICATION p.1).isSome)).map
          Prod.snd).sum ∧
    0 ≤ (foldCounts pcs).forest ∧ 0 ≤ (foldCounts pcs).agriculture ∧
    0 ≤ (foldCounts pcs).developed ∧ 0 ≤ (foldCounts pcs).wetland ∧
    0 ≤ (foldCounts pcs).other ∧ 0 ≤ (foldCounts pcs).nodata := by
  refine ⟨?_, Nat.zero_le _, Nat.zero_le _, Nat.zero_le _, Nat.zero_le _,
    Nat.zero_le _, Nat.zero_le _⟩
  have h := totalSix_foldl pcs emptyCounts
  have hz : totalSix emptyCounts = 0 := rfl
  rw [hz, Nat.zero_add] at h
  unfold totalSix at h
  exact h

lemma recordOf_fips (p : Polygon) : (recordOf p).county_fips = p.geoid := by
  cases p with
  | mk g oc => cases oc <;> rfl

/-- C5: the output table has exactly one record per input polygon, in input
order — record i is the record of polygon i — and each record carries its
polygon's identifier, regardless of the polygon's sampling outcome. -/
theorem C5_order_preservation (polygons : List Polygon) :
    (process_county_landcover polygons).length = polygons.length ∧
    (∀ i : Nat,
      (process_county_landcover polygons)[i]? = (polygons[i]?).map recordOf) ∧
    (∀ i : Nat,
      ((process_county_landcover polygons)[i]?).map CountyRecord.county_fips
        = (polygons[i]?).map Polygon.geoid) := by
  refine ⟨by simp [process_county_landcover], ?_, ?_⟩
  · intro i
    simp [process_county_landcover, List.getElem?_map]
  · intro i
    simp only [process_county_landcover, List.getElem?_map]
    cases polygons[i]? with
    | none => rfl
    | some p => simp [recordOf_fips]

/-- C6: the validator flags a record if and only if its proportion total is
strictly below 0.99 or strictly above 1.01; in particular every degenerate
all-zero record is flagged. -/
theorem C6_validator_iff (r : CountyRecord) :
    (isInvalid r = true ↔
      (r.total_proportion < 99 / 100 ∨ 101 / 100 < r.total_proportion)) ∧
    ∀ fips : String, isInvalid (zeroRecord fips) = true := by
  constructor
  · unfold isInvalid
    simp [gt_iff_lt]
  · intro fips
    unfold isInvalid zeroRecord mkRecord zeroProportions CountyRecord.total_proportion
    norm_num

/-- C7: two tallies agreeing on the five real classes yield identical
proportions no matter how their nodata counts differ — the nodata count
never influences any output proportion. -/
theorem C7_nodata_noninterference (cc1 cc2 : ClassCounts)
    (hf : cc1.forest = cc2.forest) (ha : cc1.agriculture = cc2.agriculture)
    (hd : cc1.developed = cc2.developed) (hw : cc1.wetland = cc2.wetland)
    (ho : cc1.other = cc2.other) :
    calculate_proportions cc1 = calculate_proportions cc2 := by
  have ht : total_valid_pixels cc1 = total_valid_pixels cc2 := by
    unfold total_valid_pixels
    rw [hf, ha, hd, hw, ho]
  unfold calculate_proportions
  simp only [ht, hf, ha, hd, hw, ho]

/-- Witness for C7: identical real-class counts, nodata counts 0 and 999. -/
theorem C7_nodata_noninterference_witness :
    calculate_proportions ⟨10, 20, 30, 40, 50, 0⟩
      = calculate_proportions ⟨10, 20, 30, 40, 50, 999⟩ :=
  C7_nodata_noninterference ⟨10, 20, 30, 40, 50, 0⟩ ⟨10, 20, 30, 40, 50, 999⟩
    rfl rfl rfl rfl rfl

/-- C8: the concrete tally 41 ↦ 120, 82 ↦ 30, 21 ↦ 50, 250 ↦ 10 yields a
valid total of 200 and proportions 0.60, 0.15, 0.25, 0, 0, summing to 1. -/
theorem C8_concrete_scenario :
    total_valid_pixels (foldCounts [(41, 120), (82, 30), (21, 50), (250, 10)]) = 200 ∧
    calculate_proportions (foldCounts [(41, 120), (82, 30), (21, 50), (250, 10)])
      = ⟨60 / 100, 15 / 100, 25 / 100, 0, 0⟩ ∧
    (calculate_proportions
        (foldCounts [(41, 120), (82, 30), (21, 50), (250, 10)])).total = 1 := by
  have hfold : foldCounts [(41, 120), (82, 30), (21, 50), (250, 10)]
      = ⟨120, 30, 50, 0, 0, 10⟩ := by decide
  refine ⟨by decide, ?_, ?_⟩
  · rw [hfold]
    simp only [calculate_proportions, total_valid_pixels]
    norm_num
  · rw [hfold]
    simp only [calculate_proportions, total_valid_pixels, Proportions.total]
    norm_num

/-- C9: the validation post-pass never alters the output table — after the
temporary total column is added, the out-of-range rows are flagged, and the
column is dropped, the saved table equals the aggregation output exactly,
whatever the number of flagged rows. -/
theorem C9_validation_preserves_output (results : List CountyRecord) :
    (validateAndSave results).1 = results := by
  unfold validateAndSave
  simp only [List.map_map]
  have hid : dropTotal ∘ addTotal = id := rfl
  rw [hid, List.map_id]

/-- C4: replacing the sampling outcome of polygon i by an exception still
yields one record per polygon; polygon i's record is the all-zero record
carrying its identifier, the failure is logged with that identifier, and
every other polygon's record equals the one from the run without the
failure. -/
theorem C4_failure_isolation (polygons : List Polygon) (i : Nat)
    (hi : i < polygons.length) :
    (process_county_landcover
        (polygons.set i ⟨(polygons.get ⟨i, hi⟩).geoid, .failure⟩)).length
      = polygons.length ∧
    (process_county_landcover
        (polygons.set i ⟨(polygons.get ⟨i, hi⟩).geoid, .failure⟩))[i]?
      = some (zeroRecord (polygons.get ⟨i, hi⟩).geoid) ∧
    (processCounty ⟨(polygons.get ⟨i, hi⟩).geoid, .failure⟩).2
      = ["Error processing county " ++ (polygons.get ⟨i, hi⟩).geoid] ∧
    ∀ j : Nat, j ≠ i →
      (process_county_landcover
          (polygons.set i ⟨(polygons.get ⟨i, hi⟩).geoid, .failure⟩))[j]?
        = (process_county_landcover polygons)[j]? := by
  refine ⟨by simp [process_county_landcover], ?_, rfl, ?_⟩
  · rw [process_county_landcover, List.getElem?_map,
      List.getElem?_set_eq_of_lt _ (by simpa using hi)]
    rfl
  · intro j hj
    rw [process_county_landcover, process_county_landcover, List.getElem?_map,
      List.getElem?_map, List.getElem?_set_ne (Ne.symm hj)]

/-- Witness for C4: a batch of three polygons with the failure injected at
index 1. -/
theorem C4_failure_isolation_witness :
    1 < ([⟨"01001", .tally [(41, 10)]⟩, ⟨"01003", .tally [(82, 5)]⟩,
          ⟨"01005", .empty⟩] : List Polygon).length ∧
    (process_county_landcover
        (([⟨"01001", .tally [(41, 10)]⟩, ⟨"01003", .tally [(82, 5)]⟩,
           ⟨"01005", .empty⟩] : List Polygon).set 1
          ⟨(([⟨"01001", .tally [(41, 10)]⟩, ⟨"01003", .tally [(82, 5)]⟩,
              ⟨"01005", .empty⟩] : List Polygon).get ⟨1, by decide⟩).geoid,
            .failure⟩))[1]?
      = some (zeroRecord
          (([⟨"01001", .tally [(41, 10)]⟩, ⟨"01003", .tally [(82, 5)]⟩,
             ⟨"01005", .empty⟩] : List Polygon).get ⟨1, by decide⟩).geoid) :=
  ⟨by decide,
    (C4_failure_isolation
      [⟨"01001", .tally [(41, 10)]⟩, ⟨"01003", .tally [(82, 5)]⟩,
       ⟨"01005", .empty⟩] 1 (by decide)).2.1⟩

end NlcdCounty
